import Mathlib

/-!
Shallow embedding of the Playwright-reCAPTCHA solver library, together with
proofs of the behavioural properties claimed by its specification.

The definitions translate, function by function, the relevant parts of
`playwright_recaptcha/recaptchav2/{sync_solver,async_solver,recaptcha_box}.py`
and `playwright_recaptcha/recaptchav3/sync_solver.py`.  The sync and async
implementations are line-for-line duplicates of one another up to the
suspension strategy, so a single Lean function embeds both flavours.
Playwright handles (frames, locators, responses, routes) are modelled as
records of the attributes the library actually queries.
-/

deriving instance DecidableEq for Except

namespace PlaywrightRecaptcha

/-! ## String machinery

The library's only regular-expression constructs are alternation between the
two literal backend path prefixes (`api2`/`enterprise`) and a lazy quoted
capture.  Both reduce to substring search, embedded here over `List Char`.
-/

/-- `hasSubList pat l` is true when `pat` occurs as a contiguous sublist of
`l`.  Mirrors Python's `pat in l` on strings. -/
def hasSubList (pat : List Char) : List Char → Bool
  | [] => pat.isEmpty
  | c :: rest => pat.isPrefixOf (c :: rest) || hasSubList pat rest

/-- `containsSub s pat` : the string `pat` occurs inside `s`
(Python `pat in s`). -/
def containsSub (s pat : String) : Bool :=
  hasSubList pat.data s.data

/-- `re.search("/recaptcha/(api2|enterprise)/payload", url) is not None`. -/
def matchesPayloadUrl (url : String) : Bool :=
  containsSub url "/recaptcha/api2/payload" ||
    containsSub url "/recaptcha/enterprise/payload"

/-- `re.search("/recaptcha/(api2|enterprise)/userverify", url) is not None`. -/
def matchesUserverifyUrl (url : String) : Bool :=
  containsSub url "/recaptcha/api2/userverify" ||
    containsSub url "/recaptcha/enterprise/userverify"

/-- `re.search("/recaptcha/(api2|enterprise)/anchor", url) is not None`. -/
def matchesAnchorUrl (url : String) : Bool :=
  containsSub url "/recaptcha/api2/anchor" ||
    containsSub url "/recaptcha/enterprise/anchor"

/-- `re.search("/recaptcha/(api2|enterprise)/bframe", url) is not None`. -/
def matchesBframeUrl (url : String) : Bool :=
  containsSub url "/recaptcha/api2/bframe" ||
    containsSub url "/recaptcha/enterprise/bframe"

/-- The lazy capture `(.*?)"` of Python's `re`: the shortest run of
non-newline characters up to a closing double quote.  Returns `none` when no
closing quote occurs before a newline or the end of input. -/
def captureUntilQuote : List Char → Option (List Char)
  | [] => none
  | c :: rest =>
    if c = '"' then some []
    else if c = '\n' then none
    else (captureUntilQuote rest).map (c :: ·)

/-- `re.search(pat ++ "(.*?)\"", l)`: find the first occurrence of the
literal marker `pat` after which the lazy quoted capture succeeds, and
return that capture. -/
def searchCapture (pat : List Char) : List Char → Option (List Char)
  | [] => none
  | c :: rest =>
    if pat.isPrefixOf (c :: rest) then
      match captureUntilQuote ((c :: rest).drop pat.length) with
      | some tok => some tok
      | none => searchCapture pat rest
    else searchCapture pat rest

/-- `re.search('"uvresp","(.*?)"', body)` from the v2 response callback:
the captured group, or `none` when the pattern does not match. -/
def extractUvrespToken (body : String) : Option String :=
  (searchCapture "\"uvresp\",\"".data body.data).map List.asString

/-! ## Traffic classifier (v2): `BaseSolver` session state and
`SyncSolver._response_callback` / `AsyncSolver._response_callback` -/

/-- A network response as the callback reads it: its URL and its text body. -/
structure NetResponse where
  url : String
  body : String
deriving Repr, DecidableEq

/-- The per-call session state of `BaseSolver`: `self._token` and
`self._payload_response`. -/
structure SessionState where
  token : Option String := none
  payloadResponse : Option NetResponse := none
deriving Repr, DecidableEq

/-- `SyncSolver._response_callback` (identical to the async flavour): store a
payload response only when none is stored; on a userverify match, set the
token to the captured `uvresp` value whenever the capture succeeds. -/
def response_callback (s : SessionState) (r : NetResponse) : SessionState :=
  if matchesPayloadUrl r.url && s.payloadResponse.isNone then
    { s with payloadResponse := some r }
  else if matchesUserverifyUrl r.url then
    match extractUvrespToken r.body with
    | some t => { s with token := some t }
    | none => s
  else s

/-! ## Token-leak suppression (v3): `SyncSolver._route_callback` -/

/-- What the route callback does with an intercepted request. -/
inductive RouteAction where
  | cont
  | abort
deriving Repr, DecidableEq

/-- An outbound request as the route callback reads it: URL, optional post
data and the header values. -/
structure RouteRequest where
  url : String
  postData : Option String := none
  headerValues : List String := []
deriving Repr, DecidableEq

/-- `recaptchav3/SyncSolver._route_callback`: continue untouched while no
token is known; once a token exists, abort exactly the requests whose URL,
post data or some header value contains it. -/
def route_callback (token : Option String) (req : RouteRequest) : RouteAction :=
  match token with
  | none => RouteAction.cont
  | some t =>
    if containsSub req.url t
        || (match req.postData with
            | some d => containsSub d t
            | none => false)
        || req.headerValues.any (fun v => containsSub v t) then
      RouteAction.abort
    else
      RouteAction.cont

/-! ## Widget locator and state queries: `recaptcha_box.py`

A Playwright frame is modelled by the attributes the library queries on it:
its URL, its name, its attachment state, and the visibility / enablement /
checked state of the elements the box's locators address inside it.  The
checkbox lives in the anchor frame; every other control lives in the bframe
frame. -/

structure FrameState where
  url : String := ""
  name : String := ""
  detached : Bool := false
  checkboxVisible : Bool := false
  checkboxChecked : Bool := false
  audioButtonVisible : Bool := false
  audioButtonEnabled : Bool := false
  imageButtonVisible : Bool := false
  imageButtonEnabled : Bool := false
  rateLimitTextVisible : Bool := false
  solveFailureTextVisible : Bool := false
  verifyControlEnabled : Bool := false
  pressPlayTextVisible : Bool := false
  newChallengeButtonVisible : Bool := false
  newChallengeButtonEnabled : Bool := false
  tryAgainTextVisible : Bool := false
  checkNewImagesTextVisible : Bool := false
  selectAllMatchingTextVisible : Bool := false
deriving Repr, DecidableEq

/-- `RecaptchaBox(anchor_frame, bframe_frame)`. -/
structure RecaptchaBox where
  anchorFrame : FrameState
  bframeFrame : FrameState
deriving Repr, DecidableEq

/-- `RecaptchaBox.frames_are_detached`. -/
def frames_are_detached (b : RecaptchaBox) : Bool :=
  b.anchorFrame.detached || b.bframeFrame.detached

/-- `RecaptchaBox.frames_are_attached`. -/
def frames_are_attached (b : RecaptchaBox) : Bool :=
  !frames_are_detached b

/-- `rate_limit_is_visible`, guarded by the `_check_if_attached` decorator. -/
def rate_limit_is_visible (b : RecaptchaBox) : Bool :=
  if frames_are_detached b then false
  else b.bframeFrame.rateLimitTextVisible

/-- `solve_failure_is_visible`, guarded by `_check_if_attached`. -/
def solve_failure_is_visible (b : RecaptchaBox) : Bool :=
  if frames_are_detached b then false
  else b.bframeFrame.solveFailureTextVisible

/-- `image_challenge_is_visible`, guarded by `_check_if_attached`: the
`skip.or_(next).or_(verify)` button union is enabled. -/
def image_challenge_is_visible (b : RecaptchaBox) : Bool :=
  if frames_are_detached b then false
  else b.bframeFrame.verifyControlEnabled

/-- `audio_challenge_is_visible`, guarded by `_check_if_attached`: the
"press play" text is visible and the new-challenge button is visible and
enabled. -/
def audio_challenge_is_visible (b : RecaptchaBox) : Bool :=
  if frames_are_detached b then false
  else
    b.bframeFrame.pressPlayTextVisible &&
      b.bframeFrame.newChallengeButtonVisible &&
      b.bframeFrame.newChallengeButtonEnabled

/-- `any_challenge_is_visible`, guarded by `_check_if_attached`. -/
def any_challenge_is_visible (b : RecaptchaBox) : Bool :=
  if frames_are_detached b then false
  else image_challenge_is_visible b || audio_challenge_is_visible b

/-- `try_again_is_visible`, guarded by `_check_if_attached`. -/
def try_again_is_visible (b : RecaptchaBox) : Bool :=
  if frames_are_detached b then false
  else b.bframeFrame.tryAgainTextVisible

/-- `check_new_images_is_visible`, guarded by `_check_if_attached`. -/
def check_new_images_is_visible (b : RecaptchaBox) : Bool :=
  if frames_are_detached b then false
  else b.bframeFrame.checkNewImagesTextVisible

/-- `select_all_matching_is_visible`, guarded by `_check_if_attached`. -/
def select_all_matching_is_visible (b : RecaptchaBox) : Bool :=
  if frames_are_detached b then false
  else b.bframeFrame.selectAllMatchingTextVisible

/-- `challenge_is_solved`, guarded by `_check_if_attached`: the checkbox is
visible and checked. -/
def challenge_is_solved (b : RecaptchaBox) : Bool :=
  if frames_are_detached b then false
  else b.anchorFrame.checkboxVisible && b.anchorFrame.checkboxChecked

/-- `RecaptchaBox._get_recaptcha_frame_pairs`: filter the anchor frames and
the bframe frames by URL pattern, then pair each anchor frame, in order,
with every bframe frame whose name contains `anchor_frame.name[2:]`. -/
def getRecaptchaFramePairs (frames : List FrameState) :
    List (FrameState × FrameState) :=
  let anchorFrames := frames.filter (fun f => matchesAnchorUrl f.url)
  let bframeFrames := frames.filter (fun f => matchesBframeUrl f.url)
  anchorFrames.flatMap fun a =>
    (bframeFrames.filter
        (fun b => containsSub b.name (List.asString (a.name.data.drop 2)))).map
      fun b => (a, b)

/-- The two failure modes of `from_frames`: `_get_recaptcha_frame_pairs`
raising `RecaptchaNotFoundError` with its default message, and `from_frames`
raising `RecaptchaNotFoundError("No unchecked reCAPTCHA boxes were
found.")`. -/
inductive LocateError where
  | notFound
  | noUncheckedBoxes
deriving Repr, DecidableEq

/-- The selection condition of `SyncRecaptchaBox.from_frames` (identical in
the async flavour), with Python's `and`/`or` precedence made explicit:
the pair is actionable when its frames are attached and its checkbox is
visible and unchecked, or its audio-challenge button is visible and enabled,
or its image-challenge button is visible and enabled. -/
def boxIsActionable (b : RecaptchaBox) : Bool :=
  (frames_are_attached b && b.anchorFrame.checkboxVisible &&
      !b.anchorFrame.checkboxChecked)
    || (b.bframeFrame.audioButtonVisible && b.bframeFrame.audioButtonEnabled)
    || (b.bframeFrame.imageButtonVisible && b.bframeFrame.imageButtonEnabled)

/-- `SyncRecaptchaBox.from_frames`: compute the frame pairs (failing with
`notFound` when there are none) and return the first actionable pair,
failing with the distinct `noUncheckedBoxes` error when no pair is
actionable. -/
def from_frames (frames : List FrameState) : Except LocateError RecaptchaBox :=
  let pairs := getRecaptchaFramePairs frames
  if pairs.isEmpty then Except.error LocateError.notFound
  else
    match pairs.find? (fun p => boxIsActionable ⟨p.1, p.2⟩) with
    | some p => Except.ok ⟨p.1, p.2⟩
    | none => Except.error LocateError.noUncheckedBoxes

/-! ## Audio language selection: `_solve_audio_challenge` (v2)

`urlparse` / `parse_qs` are embedded far enough to read one query parameter
(the `hl` locale values never need percent-decoding). -/

/-- Split a character list at every occurrence of the separator
(Python `str.split(sep)` for a one-character separator). -/
def splitOnCharList (sep : Char) : List Char → List (List Char)
  | [] => [[]]
  | c :: rest =>
    let r := splitOnCharList sep rest
    if c = sep then [] :: r
    else
      match r with
      | [] => [[c]]
      | h :: t => (c :: h) :: t

/-- The query component of a URL as `urlparse` reads it: everything after
the first `?` of the pre-fragment part (the part before the first `#`). -/
def queryOf (url : String) : String :=
  List.asString
    (((url.data.takeWhile (· ≠ '#')).dropWhile (· ≠ '?')).drop 1)

/-- One `name=value` pair of `parse_qsl`: the name is everything before the
first `=`, the value everything after it; pairs without `=` and pairs with a
blank value are dropped. -/
def qsPairValue (key : String) (kv : List Char) : Option String :=
  let k := kv.takeWhile (· ≠ '=')
  match kv.dropWhile (· ≠ '=') with
  | [] => none
  | _ :: v => if k = key.data && v ≠ [] then some (List.asString v) else none

/-- `parse_qs(query)[key][0]`: the first value bound to `key`, or `none`
when the key is absent (the Python code would raise `KeyError`). -/
def parseQsFirst (query key : String) : Option String :=
  ((splitOnCharList '&' query.data).filterMap (qsPairValue key)).head?

/-- `translations.ORIGINAL_LANGUAGE_AUDIO`. -/
def ORIGINAL_LANGUAGE_AUDIO : List String := ["de", "es", "fr", "nl"]

/-- The language-hint computation at the top of `_solve_audio_challenge`:
read the `hl` query parameter of the **anchor** frame's URL and replace it
by `"en-US"` when it is not in `ORIGINAL_LANGUAGE_AUDIO`. -/
def audioChallengeLanguage (b : RecaptchaBox) : Option String :=
  match parseQsFirst (queryOf b.anchorFrame.url) "hl" with
  | none => none
  | some l =>
    some (if List.contains ORIGINAL_LANGUAGE_AUDIO l then l else "en-US")

/-- Modelled from the spec: the same language-hint computation but reading
the locale the spec names — "the content sub-document's own declared
locale", i.e. the bframe frame's URL — for comparison with
`audioChallengeLanguage`, which embeds the source. -/
def audioChallengeLanguageSpec (b : RecaptchaBox) : Option String :=
  match parseQsFirst (queryOf b.bframeFrame.url) "hl" with
  | none => none
  | some l =>
    some (if List.contains ORIGINAL_LANGUAGE_AUDIO l then l else "en-US")

/-! ## Grid tile solver: `_solve_tiles` (v2)

The environment supplies what the DOM and the classifier return at each
point the code queries them.  Tiles are identified by their index in the
classifier-returned list; `iterTime k` is the whole-second wall-clock
elapsed time `(datetime.now() - start_time).seconds` observed at the guard
of the `k`-th iteration of the secondary polling loop. -/

structure TileEnv where
  dynamicAt : Nat → Bool
  initImage : Nat → String
  imageAt : Nat → Nat → String
  stillMatches : Nat → Nat → Bool
  iterTime : Nat → Nat

/-- The initial click pass of `_solve_tiles`: every index in the classifier
list is clicked; those whose class contains `rc-imageselect-dynamic-selected`
enter the changing-tiles map together with their current image URL. -/
def initChanging (env : TileEnv) (indexes : List Nat) : List (Nat × String) :=
  (indexes.filter env.dynamicAt).map fun i => (i, env.initImage i)

/-- One pass of the `for tile in changing_tiles.copy()` body at secondary
iteration `k`: an unchanged image is kept untouched; a changed image that
still classifies as matching is re-clicked and kept with its new URL; a
changed image that no longer matches is dropped.  Returns the indexes
clicked during the pass and the surviving changing-tiles map. -/
def stepTiles (env : TileEnv) (k : Nat) :
    List (Nat × String) → List Nat × List (Nat × String)
  | [] => ([], [])
  | (i, img) :: rest =>
    if env.imageAt k i = img then
      ((stepTiles env k rest).1, (i, img) :: (stepTiles env k rest).2)
    else if env.stillMatches k i then
      (i :: (stepTiles env k rest).1,
        (i, env.imageAt k i) :: (stepTiles env k rest).2)
    else stepTiles env k rest

/-- The secondary polling loop
`while changing_tiles and (datetime.now() - start_time).seconds < 60`.
`fuel` bounds the number of iterations the model unrolls (the real loop is
bounded by the wall clock); the result is the list of `(iteration, index)`
re-clicks together with the iteration at which the loop exited. -/
def tilesLoop (env : TileEnv) :
    Nat → Nat → List (Nat × String) → List (Nat × Nat) × Nat
  | 0, k, _ => ([], k)
  | fuel + 1, k, changing =>
    if changing.isEmpty then ([], k)
    else if 60 ≤ env.iterTime k then ([], k)
    else
      ((stepTiles env k changing).1.map (fun i => (k, i)) ++
          (tilesLoop env fuel (k + 1) (stepTiles env k changing).2).1,
        (tilesLoop env fuel (k + 1) (stepTiles env k changing).2).2)

/-- The observable outcome of `_solve_tiles`: the indexes clicked by the
initial pass, the `(iteration, index)` re-clicks of the secondary loop, and
the iteration at which the secondary loop exited. -/
structure TilesResult where
  primaryClicks : List Nat
  secondaryClicks : List (Nat × Nat)
  exitIteration : Nat
deriving Repr, DecidableEq

/-- `SyncSolver._solve_tiles` / `AsyncSolver._solve_tiles`. -/
def solve_tiles (env : TileEnv) (indexes : List Nat) (fuel : Nat) :
    TilesResult :=
  { primaryClicks := indexes
    secondaryClicks := (tilesLoop env fuel 0 (initChanging env indexes)).1
    exitIteration := (tilesLoop env fuel 0 (initChanging env indexes)).2 }

/-! ## Top-level orchestrator: `solve_recaptcha` (v2) -/

/-- The errors the orchestrator paths modelled here can raise. -/
inductive SolveErr where
  | rateLimit
  | solveFailed
deriving Repr, DecidableEq

/-- One observation of the polling loop inside `_click_checkbox`: the frame
attachment state, `self._token` as set so far by the response callback, and
the two visibility queries the loop makes. -/
structure PollObs where
  attached : Bool := true
  tokenSoFar : Option String := none
  rateLimitVisible : Bool := false
  anyChallengeVisible : Bool := false
deriving Repr, DecidableEq

/-- The polling loop of `_click_checkbox` over a stream of observations:
exit when the frames detach or a token arrives; raise (modelled as
`Except.error ()`) when the rate-limit banner shows; return when a challenge
becomes visible.  `none` models exhausting the observation stream, i.e. the
loop still running. -/
def clickCheckboxLoop : List PollObs → Option (Except Unit (Option String))
  | [] => none
  | o :: rest =>
    if !(o.attached && o.tokenSoFar.isNone) then some (Except.ok o.tokenSoFar)
    else if o.rateLimitVisible then some (Except.error ())
    else if o.anyChallengeVisible then some (Except.ok o.tokenSoFar)
    else clickCheckboxLoop rest

/-- The observable outcome of one iteration of the attempt loop: whether
after the modality solver ran the round ended (frames detached, or no
challenge visible any more, or the solved predicate holds), and the token
the response callback eventually captures — the loop blocks on
`while self._token is None` before returning it. -/
structure RoundOutcome where
  ended : Bool
  token : String
deriving Repr, DecidableEq

/-- The attempt loop of `solve_recaptcha` (`while attempts > 0: ...`),
reading round `i` of the environment at the `i`-th iteration:
a round that ended returns the captured token, otherwise the budget is
decremented; a budget of zero raises `RecaptchaSolveError`. -/
def runAttempts (rounds : Nat → RoundOutcome) :
    Nat → Nat → Except SolveErr String
  | 0, _ => Except.error SolveErr.solveFailed
  | n + 1, i =>
    if (rounds i).ended then Except.ok (rounds i).token
    else runAttempts rounds n (i + 1)

/-- The environment of one `solve_recaptcha` call, supplying each
observation the code makes on its way through the function. -/
structure SolveEnv where
  rateLimitAtStart : Bool := false
  checkboxVisible : Bool := false
  clickObs : List PollObs := []
  afterClickEnded : Bool := false
  waitToken : String := ""
  rounds : Nat → RoundOutcome

/-- `SyncSolver.solve_recaptcha` (identical to the async flavour) on the
paths after the box is located: raise on a visible rate-limit banner; click
the checkbox when visible and poll (raising on a rate-limit banner, or
returning an immediately captured token, or — when the widget resolved
without a challenge — blocking for the token); otherwise run the attempt
loop.  `none` models an observation stream that never becomes decisive. -/
def solve_recaptcha (env : SolveEnv) (attempts : Nat) :
    Option (Except SolveErr String) :=
  if env.rateLimitAtStart then some (Except.error SolveErr.rateLimit)
  else if env.checkboxVisible then
    match clickCheckboxLoop env.clickObs with
    | none => none
    | some (Except.error ()) => some (Except.error SolveErr.rateLimit)
    | some (Except.ok (some t)) => some (Except.ok t)
    | some (Except.ok none) =>
      if env.afterClickEnded then some (Except.ok env.waitToken)
      else some (runAttempts env.rounds attempts 0)
  else some (runAttempts env.rounds attempts 0)

/-! ## Token injection -/

/-- Modelled from the spec: the `inject_token` operation is not under
`src/` — only its test (`test_token_injection`) and example call sites are.
Per §6 of the spec it "writes the token into the widget's hidden response
field and dispatches the page's own callback, bypassing the interactive
solve entirely".  The page state records the hidden response field, how
often the page's verification callback has been invoked, and how many
interactive solve steps have been performed. -/
structure InjectPageState where
  responseField : Option String := none
  callbackInvocations : Nat := 0
  interactiveSolveSteps : Nat := 0
deriving Repr, DecidableEq

/-- Modelled from the spec: `inject_token(token)` writes the token into the
hidden response field and dispatches the page's own callback once,
performing no interactive solve step. -/
def inject_token (token : String) (p : InjectPageState) : InjectPageState :=
  { p with
    responseField := some token
    callbackInvocations := p.callbackInvocations + 1 }

/-! ## Concrete instances used by the counterexamples and witnesses -/

/-- A session whose token was already captured as `"A"`. -/
def c1State : SessionState := { token := some "A" }

/-- A later verification response carrying a contradicting token `"B"`. -/
def c1Response : NetResponse :=
  { url := "https://www.google.com/recaptcha/api2/userverify?k=6LeABC"
    body := "[\"uvresp\",\"B\",null,120]" }

/-- An anchor frame of an instance whose checkbox is already checked. -/
def c2CheckedAnchor : FrameState :=
  { url := "https://www.google.com/recaptcha/api2/anchor?ar=1&hl=en"
    name := "a-xyz123"
    checkboxVisible := true
    checkboxChecked := true }

/-- The bframe frame paired with `c2CheckedAnchor`, with no challenge
control visible or enabled. -/
def c2Bframe : FrameState :=
  { url := "https://www.google.com/recaptcha/api2/bframe?hl=en"
    name := "c-xyz123" }

/-- A solve environment all of whose rounds end with an empty captured
token. -/
def c4Env : SolveEnv := { rounds := fun _ => { ended := true, token := "" } }

/-- A verification response whose quoted `uvresp` value is the empty
string. -/
def c4Response : NetResponse :=
  { url := "https://www.google.com/recaptcha/api2/userverify?k=6LeABC"
    body := "[\"uvresp\",\"\",null]" }

/-- Rounds that never end: the attempt budget will be exhausted. -/
def c4StallRounds : Nat → RoundOutcome := fun _ => { ended := false, token := "" }

/-- Rounds that end immediately with the captured token `"T"`. -/
def c4EndRounds : Nat → RoundOutcome := fun _ => { ended := true, token := "T" }

/-- A box whose anchor frame has detached. -/
def c5DetachedBox : RecaptchaBox :=
  { anchorFrame := { detached := true, checkboxVisible := true, checkboxChecked := true }
    bframeFrame :=
      { rateLimitTextVisible := true
        solveFailureTextVisible := true
        verifyControlEnabled := true
        pressPlayTextVisible := true
        newChallengeButtonVisible := true
        newChallengeButtonEnabled := true
        tryAgainTextVisible := true
        checkNewImagesTextVisible := true
        selectAllMatchingTextVisible := true } }

/-- A session that already stores a payload response. -/
def c6State : SessionState :=
  { payloadResponse :=
      some { url := "https://www.google.com/recaptcha/api2/payload?p=first"
             body := "png-bytes-1" } }

/-- A second payload-endpoint response observed before the solver cleared
the stored one. -/
def c6Response : NetResponse :=
  { url := "https://www.google.com/recaptcha/api2/payload?p=second"
    body := "png-bytes-2" }

/-- A request whose URL embeds the captured token. -/
def c7Request : RouteRequest :=
  { url := "https://example.com/submit?response=TOKEN123"
    postData := some "a=1&b=2"
    headerValues := ["application/json", "gzip"] }

/-- A tile-solver environment in which both classifier-returned tiles are
dynamically replacing, every replacement still classifies as matching (the
images never stabilize), and iteration `k` of the secondary loop starts at
elapsed second `30 * k`. -/
def c8TileEnv : TileEnv :=
  { dynamicAt := fun _ => true
    initImage := fun _ => "a"
    imageAt := fun k _ => if k % 2 = 0 then "b" else "a"
    stillMatches := fun _ _ => true
    iterTime := fun k => 30 * k }

/-- An environment whose rate-limit banner is already visible when the box
is located. -/
def c9EnvStart : SolveEnv :=
  { rateLimitAtStart := true, rounds := fun _ => { ended := false, token := "" } }

/-- An environment whose rate-limit banner appears at the first poll after
the checkbox click. -/
def c9EnvPoll : SolveEnv :=
  { checkboxVisible := true
    clickObs := [{ rateLimitVisible := true }]
    rounds := fun _ => { ended := false, token := "" } }

/-- A box whose anchor frame declares locale `fr` while its bframe (content)
frame declares locale `de`. -/
def c10Box : RecaptchaBox :=
  { anchorFrame :=
      { url := "https://www.google.com/recaptcha/api2/anchor?ar=1&hl=fr&size=normal" }
    bframeFrame :=
      { url := "https://www.google.com/recaptcha/api2/bframe?hl=de&v=abc" } }

/-- A box whose anchor frame declares locale `en`, which has no
original-language-audio mapping. -/
def c10BoxEn : RecaptchaBox :=
  { anchorFrame :=
      { url := "https://www.google.com/recaptcha/api2/anchor?ar=1&hl=en" }
    bframeFrame :=
      { url := "https://www.google.com/recaptcha/api2/bframe?hl=en" } }

/-! ## Theorems -/

/-- Reducing `if c then abort else cont = abort` to the condition. -/
theorem ite_abort_iff (c : Prop) [Decidable c] :
    (if c then RouteAction.abort else RouteAction.cont) = RouteAction.abort ↔ c := by
  by_cases h : c <;> simp [h]

/-- C1 counterexample: with the token already captured as `"A"`, a later
verification response carrying `"B"` overwrites the stored token — the
response callback does not ignore contradicting captures. -/
theorem c1_token_overwritten_counterexample :
    c1State.token = some "A" ∧
    matchesUserverifyUrl c1Response.url = true ∧
    (response_callback c1State c1Response).token = some "B" := by
  decide

/-- C1 (amended): once the result token is set, every observed response
leaves it unchanged except a verification-endpoint response whose body
carries an extractable `uvresp` value, which overwrites it (the code treats
verification responses as authoritative). -/
theorem c1_token_update_amended (s : SessionState) (r : NetResponse)
    (t : String) (h : s.token = some t) :
    (response_callback s r).token = some t ∨
      (matchesUserverifyUrl r.url = true ∧
        (response_callback s r).token = extractUvrespToken r.body ∧
        (extractUvrespToken r.body).isSome = true) := by
  unfold response_callback
  by_cases h1 : (matchesPayloadUrl r.url && s.payloadResponse.isNone) = true
  · simp [h1, h]
  · by_cases h2 : matchesUserverifyUrl r.url = true
    · cases he : extractUvrespToken r.body with
      | none => simp [h1, h2, he, h]
      | some t2 => right; simp [h1, h2, he]
    · simp [h1, h2, h]

/-- Witness for the amended C1 theorem at a concrete session and
response. -/
theorem c1_token_update_amended_witness :
    (response_callback c1State c1Response).token = some "A" ∨
      (matchesUserverifyUrl c1Response.url = true ∧
        (response_callback c1State c1Response).token =
          extractUvrespToken c1Response.body ∧
        (extractUvrespToken c1Response.body).isSome = true) :=
  c1_token_update_amended c1State c1Response "A" (by decide)

/-- C3: injecting a pre-obtained token into a widget with no prior token
writes exactly that token into the hidden response field, invokes the page's
own verification callback exactly once, and performs no interactive solve
step.  (`inject_token` is modelled from the spec: only its test and example
call sites are under `src/`.) -/
theorem c3_inject_token_contract (p : InjectPageState) (t : String)
    (_h : p.responseField = none) (h0 : p.callbackInvocations = 0) :
    (inject_token t p).responseField = some t ∧
    (inject_token t p).callbackInvocations = 1 ∧
    (inject_token t p).interactiveSolveSteps = p.interactiveSolveSteps := by
  simp [inject_token, h0]

/-- Witness for C3: injecting `"XYZ"` into a fresh page state. -/
theorem c3_inject_token_contract_witness :
    (inject_token "XYZ" {}).responseField = some "XYZ" ∧
    (inject_token "XYZ" {}).callbackInvocations = 1 ∧
    (inject_token "XYZ" {}).interactiveSolveSteps =
      InjectPageState.interactiveSolveSteps {} :=
  c3_inject_token_contract {} "XYZ" (by decide) (by decide)

/-- C2: `from_frames` fails with the `notFound` error when no anchor/bframe
pair matching the two URL patterns exists, and fails with the distinct
`noUncheckedBoxes` error — never returning a box — when pairs exist but
every pair's checkbox is checked and neither challenge button is
visible-and-enabled. -/
theorem c2_from_frames_failure_modes (frames : List FrameState) :
    (getRecaptchaFramePairs frames = [] →
      from_frames frames = Except.error LocateError.notFound) ∧
    (getRecaptchaFramePairs frames ≠ [] →
      (∀ p ∈ getRecaptchaFramePairs frames,
        p.1.checkboxChecked = true ∧
        (p.2.audioButtonVisible && p.2.audioButtonEnabled) = false ∧
        (p.2.imageButtonVisible && p.2.imageButtonEnabled) = false) →
      from_frames frames = Except.error LocateError.noUncheckedBoxes) := by
  constructor
  · intro h
    simp [from_frames, h]
  · intro hne hall
    have hfind : (getRecaptchaFramePairs frames).find?
        (fun p => boxIsActionable ⟨p.1, p.2⟩) = none := by
      rw [List.find?_eq_none]
      intro p hp
      obtain ⟨h1, h2, h3⟩ := hall p hp
      simp [boxIsActionable, h1, h2, h3]
    have hpe : (getRecaptchaFramePairs frames).isEmpty = false := by
      cases hlist : getRecaptchaFramePairs frames with
      | nil => exact absurd hlist hne
      | cons a t => rfl
    simp [from_frames, hpe, hfind]

/-- Witness for C2: an empty frame list gives `notFound`; a single pair
whose checkbox is checked with no active challenge control gives the
distinct `noUncheckedBoxes` error. -/
theorem c2_from_frames_failure_modes_witness :
    from_frames [] = Except.error LocateError.notFound ∧
    from_frames [c2CheckedAnchor, c2Bframe] =
      Except.error LocateError.noUncheckedBoxes :=
  ⟨(c2_from_frames_failure_modes []).1 (by decide),
    (c2_from_frames_failure_modes [c2CheckedAnchor, c2Bframe]).2 (by decide)
      (by decide)⟩

/-- C4 counterexample: the "never returns an empty token" half of the claim
fails — a verification response whose quoted `uvresp` value is empty makes
the callback capture the empty string, and a round that ends with that
capture makes `solve_recaptcha` return `""` successfully. -/
theorem c4_empty_token_counterexample :
    extractUvrespToken c4Response.body = some "" ∧
    (response_callback {} c4Response).token = some "" ∧
    solve_recaptcha c4Env 5 = some (Except.ok "") := by
  decide

/-- C4 (amended): exhausting the attempt budget without a round ever ending
in a solved/detached/challenge-absent state raises `SolveFailed`; a
successful return yields exactly the token captured from a verification
response for some ended round — which may be the empty string. -/
theorem c4_solve_outcome_amended (env : SolveEnv) (attempts : Nat) :
    (∀ start : Nat,
      (∀ j : Nat, start ≤ j → j < start + attempts →
        (env.rounds j).ended = false) →
      runAttempts env.rounds attempts start =
        Except.error SolveErr.solveFailed) ∧
    (env.rateLimitAtStart = false → env.checkboxVisible = false →
      (∀ j : Nat, j < attempts → (env.rounds j).ended = false) →
      solve_recaptcha env attempts =
        some (Except.error SolveErr.solveFailed)) ∧
    (∀ start t, runAttempts env.rounds attempts start = Except.ok t →
      ∃ j, (env.rounds j).ended = true ∧ t = (env.rounds j).token) := by
  have hA : ∀ n start : Nat,
      (∀ j : Nat, start ≤ j → j < start + n → (env.rounds j).ended = false) →
      runAttempts env.rounds n start = Except.error SolveErr.solveFailed := by
    intro n
    induction n with
    | zero => intro start _; rfl
    | succ m ih =>
      intro start h
      have h0 : (env.rounds start).ended = false :=
        h start (Nat.le_refl _) (by omega)
      simp only [runAttempts, h0, Bool.false_eq_true, if_false]
      exact ih (start + 1) (fun j h1 h2 => h j (by omega) (by omega))
  have hC : ∀ n start : Nat, ∀ t : String,
      runAttempts env.rounds n start = Except.ok t →
      ∃ j, (env.rounds j).ended = true ∧ t = (env.rounds j).token := by
    intro n
    induction n with
    | zero =>
      intro start t h
      exact absurd h (by simp [runAttempts])
    | succ m ih =>
      intro start t h
      by_cases h0 : (env.rounds start).ended = true
      · refine ⟨start, h0, ?_⟩
        rw [runAttempts, if_pos h0] at h
        exact (Except.ok.injEq _ _ ▸ congrArg id h).symm
      · have h0' : (env.rounds start).ended = false := by
          cases hcase : (env.rounds start).ended
          · rfl
          · exact absurd hcase h0
        rw [runAttempts, if_neg (by simp [h0'])] at h
        exact ih (start + 1) t h
  refine ⟨hA attempts, ?_, hC attempts⟩
  intro h1 h2 h3
  have hrun := hA attempts 0 (fun j _ hj2 => h3 j (by omega))
  simp [solve_recaptcha, h1, h2, hrun]

/-- Witness for the amended C4 theorem: two stalled rounds exhaust a budget
of two, and an ended round's captured token is what a success returns. -/
theorem c4_solve_outcome_amended_witness :
    runAttempts c4StallRounds 2 0 = Except.error SolveErr.solveFailed ∧
    solve_recaptcha { rounds := c4StallRounds } 2 =
      some (Except.error SolveErr.solveFailed) ∧
    ∃ j, (c4EndRounds j).ended = true ∧ "T" = (c4EndRounds j).token := by
  refine ⟨?_, ?_, ?_⟩
  · exact (c4_solve_outcome_amended { rounds := c4StallRounds } 2).1 0
      (fun j _ _ => rfl)
  · exact (c4_solve_outcome_amended { rounds := c4StallRounds } 2).2.1 rfl rfl
      (fun j _ => rfl)
  · exact (c4_solve_outcome_amended { rounds := c4EndRounds } 1).2.2 0 "T"
      (by decide)

/-- C5: every widget state query returns `false` as soon as either frame is
detached, without failing; only the explicit attachment checks
(`frames_are_attached` / `frames_are_detached`) report the detachment
itself. -/
theorem c5_detached_queries_false (b : RecaptchaBox)
    (h : frames_are_detached b = true) :
    rate_limit_is_visible b = false ∧
    solve_failure_is_visible b = false ∧
    image_challenge_is_visible b = false ∧
    audio_challenge_is_visible b = false ∧
    any_challenge_is_visible b = false ∧
    try_again_is_visible b = false ∧
    check_new_images_is_visible b = false ∧
    select_all_matching_is_visible b = false ∧
    challenge_is_solved b = false ∧
    frames_are_attached b = false := by
  simp [rate_limit_is_visible, solve_failure_is_visible,
    image_challenge_is_visible, audio_challenge_is_visible,
    any_challenge_is_visible, try_again_is_visible,
    check_new_images_is_visible, select_all_matching_is_visible,
    challenge_is_solved, frames_are_attached, h]

/-- Witness for C5 at a detached box all of whose underlying element states
would otherwise report `true`. -/
theorem c5_detached_queries_false_witness :
    rate_limit_is_visible c5DetachedBox = false ∧
    solve_failure_is_visible c5DetachedBox = false ∧
    image_challenge_is_visible c5DetachedBox = false ∧
    audio_challenge_is_visible c5DetachedBox = false ∧
    any_challenge_is_visible c5DetachedBox = false ∧
    try_again_is_visible c5DetachedBox = false ∧
    check_new_images_is_visible c5DetachedBox = false ∧
    select_all_matching_is_visible c5DetachedBox = false ∧
    challenge_is_solved c5DetachedBox = false ∧
    frames_are_attached c5DetachedBox = false :=
  c5_detached_queries_false c5DetachedBox (by decide)

/-- C6: a payload-endpoint response is stored as the session's challenge
payload only when none is stored, and any already stored payload survives
every later observed response until the solver clears it. -/
theorem c6_payload_first_match_wins (s : SessionState) (r : NetResponse) :
    (matchesPayloadUrl r.url = true → s.payloadResponse = none →
      (response_callback s r).payloadResponse = some r) ∧
    (∀ p, s.payloadResponse = some p →
      (response_callback s r).payloadResponse = some p) := by
  constructor
  · intro h1 h2
    simp [response_callback, h1, h2]
  · intro p hp
    unfold response_callback
    have h1 : (matchesPayloadUrl r.url && s.payloadResponse.isNone) = false := by
      simp [hp]
    by_cases h2 : matchesUserverifyUrl r.url = true
    · cases he : extractUvrespToken r.body with
      | none => simp [h1, h2, he, hp]
      | some t2 => simp [h1, h2, he, hp]
    · simp [h1, h2, hp]

/-- Witness for C6: a fresh session stores the payload; a session that
already stores one ignores a second payload-endpoint response. -/
theorem c6_payload_first_match_wins_witness :
    (response_callback {} c6Response).payloadResponse = some c6Response ∧
    (response_callback c6State c6Response).payloadResponse =
      c6State.payloadResponse := by
  constructor
  · exact (c6_payload_first_match_wins {} c6Response).1 (by decide) (by decide)
  · cases hp : c6State.payloadResponse with
    | none => exact absurd hp (by decide)
    | some p0 =>
      exact (c6_payload_first_match_wins c6State c6Response).2 p0 hp

/-- C7: the token-leak suppression route callback lets every request through
while no token is captured, and once a token exists it aborts exactly the
requests whose URL, post data, or some header value contains the token. -/
theorem c7_route_abort_iff (req : RouteRequest) (t : String) :
    route_callback none req = RouteAction.cont ∧
    (route_callback (some t) req = RouteAction.abort ↔
      (containsSub req.url t = true ∨
        (∃ d, req.postData = some d ∧ containsSub d t = true) ∨
        (∃ v, v ∈ req.headerValues ∧ containsSub v t = true))) := by
  refine ⟨rfl, ?_⟩
  unfold route_callback
  rw [ite_abort_iff]
  cases hpd : req.postData with
  | none => simp [hpd, List.any_eq_true]
  | some d => simp [hpd, List.any_eq_true, or_assoc]

/-- Witness for C7 at a concrete request whose URL embeds the token. -/
theorem c7_route_abort_iff_witness :
    route_callback none c7Request = RouteAction.cont ∧
    route_callback (some "TOKEN123") c7Request = RouteAction.abort := by
  refine ⟨(c7_route_abort_iff c7Request "TOKEN123").1, ?_⟩
  exact (c7_route_abort_iff c7Request "TOKEN123").2.mpr (Or.inl (by decide))

/-- Every index clicked by one secondary pass was already tracked in the
changing-tiles map. -/
theorem stepTiles_fst_mem (env : TileEnv) (k : Nat) :
    ∀ l : List (Nat × String), ∀ i ∈ (stepTiles env k l).1, ∃ s, (i, s) ∈ l := by
  intro l
  induction l with
  | nil => intro i hi; simp [stepTiles] at hi
  | cons hd tl ih =>
    obtain ⟨i0, img⟩ := hd
    intro i hi
    by_cases hc1 : env.imageAt k i0 = img
    · rw [stepTiles, if_pos hc1] at hi
      obtain ⟨s, hs⟩ := ih i hi
      exact ⟨s, List.mem_cons_of_mem _ hs⟩
    · by_cases hc2 : env.stillMatches k i0 = true
      · rw [stepTiles, if_neg hc1, if_pos hc2] at hi
        rcases List.mem_cons.mp hi with h | h
        · subst h
          exact ⟨img, List.mem_cons_self _ _⟩
        · obtain ⟨s, hs⟩ := ih i h
          exact ⟨s, List.mem_cons_of_mem _ hs⟩
      · rw [stepTiles, if_neg hc1, if_neg hc2] at hi
        obtain ⟨s, hs⟩ := ih i hi
        exact ⟨s, List.mem_cons_of_mem _ hs⟩

/-- Every tile kept by one secondary pass was already tracked in the
changing-tiles map. -/
theorem stepTiles_snd_mem (env : TileEnv) (k : Nat) :
    ∀ l : List (Nat × String), ∀ i s',
      (i, s') ∈ (stepTiles env k l).2 → ∃ s, (i, s) ∈ l := by
  intro l
  induction l with
  | nil => intro i s' hi; simp [stepTiles] at hi
  | cons hd tl ih =>
    obtain ⟨i0, img⟩ := hd
    intro i s' hi
    by_cases hc1 : env.imageAt k i0 = img
    · rw [stepTiles, if_pos hc1] at hi
      rcases List.mem_cons.mp hi with h | h
      · obtain ⟨h1, _⟩ := Prod.mk.injEq .. ▸ h
        exact ⟨img, h1 ▸ List.mem_cons_self _ _⟩
      · obtain ⟨s, hs⟩ := ih i s' h
        exact ⟨s, List.mem_cons_of_mem _ hs⟩
    · by_cases hc2 : env.stillMatches k i0 = true
      · rw [stepTiles, if_neg hc1, if_pos hc2] at hi
        rcases List.mem_cons.mp hi with h | h
        · obtain ⟨h1, _⟩ := Prod.mk.injEq .. ▸ h
          exact ⟨img, h1 ▸ List.mem_cons_self _ _⟩
        · obtain ⟨s, hs⟩ := ih i s' h
          exact ⟨s, List.mem_cons_of_mem _ hs⟩
      · rw [stepTiles, if_neg hc1, if_neg hc2] at hi
        obtain ⟨s, hs⟩ := ih i s' hi
        exact ⟨s, List.mem_cons_of_mem _ hs⟩

/-- Every `(iteration, index)` re-click of the secondary loop concerns a
tracked tile and happens at an iteration whose start time is below the
60-second ceiling. -/
theorem tilesLoop_clicks_mem (env : TileEnv) :
    ∀ fuel k l, ∀ q ∈ (tilesLoop env fuel k l).1,
      (∃ s, (q.2, s) ∈ l) ∧ env.iterTime q.1 < 60 := by
  intro fuel
  induction fuel with
  | zero => intro k l q hq; simp [tilesLoop] at hq
  | succ m ih =>
    intro k l q hq
    by_cases he : l.isEmpty = true
    · rw [tilesLoop, if_pos he] at hq
      simp at hq
    · by_cases ht : 60 ≤ env.iterTime k
      · rw [tilesLoop, if_neg he, if_pos ht] at hq
        simp at hq
      · rw [tilesLoop, if_neg he, if_neg ht] at hq
        rcases List.mem_append.mp hq with h | h
        · obtain ⟨i, hi, hqe⟩ := List.mem_map.mp h
          obtain ⟨s, hs⟩ := stepTiles_fst_mem env k l i hi
          subst hqe
          refine ⟨⟨s, hs⟩, ?_⟩
          show env.iterTime k < 60
          omega
        · obtain ⟨⟨s, hs⟩, hlt⟩ := ih (k + 1) (stepTiles env k l).2 q h
          obtain ⟨s0, hs0⟩ := stepTiles_snd_mem env k l q.2 s hs
          exact ⟨⟨s0, hs0⟩, hlt⟩

/-- Once the wall clock reaches the 60-second mark at iteration `N`, the
secondary loop exits at or before `N`, regardless of the tile states. -/
theorem tilesLoop_exit_le (env : TileEnv) (N : Nat)
    (hN : 60 ≤ env.iterTime N) :
    ∀ fuel k l, k ≤ N → N - k < fuel → (tilesLoop env fuel k l).2 ≤ N := by
  intro fuel
  induction fuel with
  | zero => intro k l h1 h2; omega
  | succ m ih =>
    intro k l h1 h2
    by_cases he : l.isEmpty = true
    · rw [tilesLoop, if_pos he]; exact h1
    · by_cases ht : 60 ≤ env.iterTime k
      · rw [tilesLoop, if_neg he, if_pos ht]; exact h1
      · have hkN : k < N := by
          rcases Nat.lt_or_eq_of_le h1 with h | h
          · exact h
          · subst h; exact absurd hN ht
        rw [tilesLoop, if_neg he, if_neg ht]
        exact ih (k + 1) (stepTiles env k l).2 (by omega) (by omega)

/-- C8: the grid tile solver clicks only indexes drawn from the
classifier-returned list — in the initial pass and in the secondary re-click
loop alike — every secondary re-click happens before the 60-second safety
ceiling, and once the wall clock reaches 60 seconds at some iteration the
secondary loop has exited by that iteration even when the tile images never
stabilize. -/
theorem c8_solve_tiles_safety (env : TileEnv) (indexes : List Nat)
    (fuel : Nat) :
    (∀ i ∈ (solve_tiles env indexes fuel).primaryClicks, i ∈ indexes) ∧
    (∀ q ∈ (solve_tiles env indexes fuel).secondaryClicks,
      q.2 ∈ indexes ∧ env.iterTime q.1 < 60) ∧
    (∀ N, 60 ≤ env.iterTime N → N < fuel →
      (solve_tiles env indexes fuel).exitIteration ≤ N) := by
  refine ⟨fun i hi => hi, ?_, ?_⟩
  · intro q hq
    obtain ⟨⟨s, hs⟩, hlt⟩ :=
      tilesLoop_clicks_mem env fuel 0 (initChanging env indexes) q hq
    refine ⟨?_, hlt⟩
    obtain ⟨a, ha, hae⟩ := List.mem_map.mp hs
    have ha1 : a = q.2 := congrArg Prod.fst hae
    exact ha1 ▸ List.mem_of_mem_filter ha
  · intro N hN hNf
    exact tilesLoop_exit_le env N hN fuel 0 (initChanging env indexes)
      (Nat.zero_le N) (by omega)

/-- Witness for C8 at a concrete environment whose tiles never stabilize:
the re-click at iteration 1 targets index 0 of the classifier list before
the ceiling, and the loop has exited by iteration 2, where the clock
reaches 60 seconds. -/
theorem c8_solve_tiles_safety_witness :
    ((0 : Nat) ∈ ([0, 1] : List Nat) ∧ c8TileEnv.iterTime 1 < 60) ∧
    (solve_tiles c8TileEnv [0, 1] 10).exitIteration ≤ 2 := by
  refine ⟨(c8_solve_tiles_safety c8TileEnv [0, 1] 10).2.1 (1, 0) ?_,
    (c8_solve_tiles_safety c8TileEnv [0, 1] 10).2.2 2 (by decide) (by decide)⟩
  decide

/-- C9: a rate-limit banner visible when the box is located, or becoming
visible while polling after the checkbox click, makes `solve_recaptcha`
raise `RateLimitExceeded` at once — for every attempt budget and every
round behaviour, so no attempt is consumed. -/
theorem c9_rate_limit_immediate (env : SolveEnv) (attempts : Nat)
    (h : env.rateLimitAtStart = true ∨
      (env.checkboxVisible = true ∧
        clickCheckboxLoop env.clickObs = some (Except.error ()))) :
    solve_recaptcha env attempts = some (Except.error SolveErr.rateLimit) ∧
    (∀ (rounds2 : Nat → RoundOutcome) (attempts2 : Nat),
      solve_recaptcha { env with rounds := rounds2 } attempts2 =
        some (Except.error SolveErr.rateLimit)) := by
  have key : ∀ (rounds2 : Nat → RoundOutcome) (a2 : Nat),
      solve_recaptcha { env with rounds := rounds2 } a2 =
        some (Except.error SolveErr.rateLimit) := by
    intro rounds2 a2
    rcases h with h | ⟨hcb, hloop⟩
    · simp [solve_recaptcha, h]
    · by_cases hrl : env.rateLimitAtStart = true
      · simp [solve_recaptcha, hrl]
      · have hrl' : env.rateLimitAtStart = false := by
          cases henv : env.rateLimitAtStart
          · rfl
          · exact absurd henv hrl
        simp [solve_recaptcha, hrl', hcb, hloop]
  exact ⟨key env.rounds attempts, key⟩

/-- Witness for C9: the banner already visible at location time, and the
banner appearing at the first poll after the checkbox click. -/
theorem c9_rate_limit_immediate_witness :
    solve_recaptcha c9EnvStart 5 = some (Except.error SolveErr.rateLimit) ∧
    solve_recaptcha c9EnvPoll 0 = some (Except.error SolveErr.rateLimit) :=
  ⟨(c9_rate_limit_immediate c9EnvStart 5 (Or.inl rfl)).1,
    (c9_rate_limit_immediate c9EnvPoll 0 (Or.inr ⟨rfl, by decide⟩)).1⟩

/-- C10 counterexample: on a box whose anchor frame declares `hl=fr` while
its content (bframe) frame declares `hl=de`, the code derives the
speech-to-text language hint `fr` from the anchor frame — not the content
sub-document's declared locale `de`. -/
theorem c10_language_source_counterexample :
    parseQsFirst (queryOf c10Box.bframeFrame.url) "hl" = some "de" ∧
    audioChallengeLanguageSpec c10Box = some "de" ∧
    audioChallengeLanguage c10Box = some "fr" := by
  decide

/-- C10 (amended): the speech-to-text language hint is derived from the
**anchor** sub-document's declared locale (its `hl` query parameter), and
falls back to `en-US` exactly when that locale is not in the
original-language-audio mapping. -/
theorem c10_language_amended (b : RecaptchaBox) (l : String)
    (h : parseQsFirst (queryOf b.anchorFrame.url) "hl" = some l) :
    (List.contains ORIGINAL_LANGUAGE_AUDIO l = true →
      audioChallengeLanguage b = some l) ∧
    (List.contains ORIGINAL_LANGUAGE_AUDIO l = false →
      audioChallengeLanguage b = some "en-US") := by
  have hmain : audioChallengeLanguage b =
      some (if List.contains ORIGINAL_LANGUAGE_AUDIO l then l else "en-US") := by
    unfold audioChallengeLanguage
    rw [h]
  constructor <;> intro hc <;> rw [hmain, hc] <;> simp

/-- Witness for the amended C10 theorem: locale `fr` is kept, locale `en`
falls back to `en-US`. -/
theorem c10_language_amended_witness :
    audioChallengeLanguage c10Box = some "fr" ∧
    audioChallengeLanguage c10BoxEn = some "en-US" :=
  ⟨(c10_language_amended c10Box "fr" (by decide)).1 (by decide),
    (c10_language_amended c10BoxEn "en" (by decide)).2 (by decide)⟩

end PlaywrightRecaptcha
